import Mathlib

/-!
Verification of the kwella ride-dispatch server.

This file shallowly embeds the parts of the repository that the claims
C1-C10 are about:

* `src/server/users/models.py` — the `User` model with its `Types`
  enumeration and the `Owner` / `Driver` / `Rider` proxy models and their
  role-specific `save` hooks;
* `src/server/core/middleware.py` — `TokenAuthMiddleware.__call__`, the
  token-authentication middleware attaching a user or the anonymous
  marker to the connection scope;
* `src/server/trips/models.py` — the `Trip` model, its field list and the
  `Transitions` status enumeration;
* the Dispatch Session (websocket consumer) handling `echo.message`,
  `create.trip` and `update.trip` and the group registry it uses.  The
  consumer module is not under `src/`; it is modelled from the spec
  (sections 4.2-4.4), and each such definition is marked
  `Modelled from the spec:` in its doc comment.

Python values are embedded as plain Lean data: machine state is passed
explicitly, exceptions become `Except`, and `None` becomes `Option`.
-/

/-! ## Users (src/server/users/models.py) -/

/-- The `User.Types` text choices of the user model: DRIVER, OWNER, RIDER. -/
inductive UserType where
  | DRIVER
  | OWNER
  | RIDER
deriving DecidableEq, Repr

/-- The `User` model fields relevant to the claims.  `pk` is the primary
key: `none` models an unsaved record (Python `self.pk is None`), `some n`
a persisted one.  Timestamps and OTP are carried as opaque numbers. -/
structure UserRec where
  pk : Option Nat
  first_name : Option String
  last_name : Option String
  phone_number : String
  is_staff : Bool
  is_active : Bool
  otp : Option Nat
  date_joined : Nat
  type : UserType
deriving DecidableEq, Repr

/-- Python truthiness of a primary-key value: `None` and `0` are falsy,
every other integer is truthy (`if not self.pk:`). -/
def pkTruthy : Option Nat → Bool
  | none => false
  | some n => n != 0

/-- `Owner.save` from users/models.py: unconditionally sets
`is_staff = True`, then sets `type = OWNER` when the record has no
primary key yet, and persists the record. -/
def Owner.save (u : UserRec) : UserRec :=
  let u1 := { u with is_staff := true }
  if pkTruthy u1.pk then u1 else { u1 with type := UserType.OWNER }

/-- `Driver.save` from users/models.py: sets `type = DRIVER` when the
record has no primary key yet, then persists the record unchanged
otherwise. -/
def Driver.save (u : UserRec) : UserRec :=
  if pkTruthy u.pk then u else { u with type := UserType.DRIVER }

/-- `Rider.save` from users/models.py: sets `type = RIDER` when the
record has no primary key yet, then persists the record unchanged
otherwise. -/
def Rider.save (u : UserRec) : UserRec :=
  if pkTruthy u.pk then u else { u with type := UserType.RIDER }

/-! ## Token authentication middleware (src/server/core/middleware.py) -/

/-- The value the middleware attaches to `scope['user']`: either the
Django `AnonymousUser()` marker or an authenticated user record. -/
inductive Principal where
  | anonymousUser
  | user (u : UserRec)
deriving DecidableEq, Repr

/-- Token extraction in `TokenAuthMiddleware.__call__`:
`parse_qs(scope['query_string'])` collects the non-blank values of each
query parameter (blank values are dropped by `parse_qs`), then
`query_string.get('token', None)` and `token[0]` take the first value of
the `token` parameter, if any.  The argument is the parsed list of
`key=value` pairs of the query string, in order. -/
def extractToken (pairs : List (String × String)) : Option String :=
  ((pairs.filter (fun p => p.1 == "token" && p.2 != "")).map Prod.snd).head?

/-- `TokenAuthMiddleware.__call__` from core/middleware.py.

* `verify` is the external trust service: `AccessToken(token_string)`
  either yields the `user_id` claim of a verified token or raises a
  `TokenError` (modelled as `Except.error`) for a malformed or expired
  token — the source wraps this call in no `try`/`except`;
* `db` is `User.objects.get(id=user_id)`, with `DoesNotExist` already
  mapped to `none` by the `get_user` helper of the same file.

Control flow, line by line: a missing token attaches `AnonymousUser()`;
otherwise `AccessToken(token[0])` runs unprotected, so a verification
failure propagates as an exception; a verified token whose subject is
not found, or is found but inactive, attaches `AnonymousUser()`; an
active subject is attached as the authenticated user. -/
def tokenAuthMiddleware (verify : String → Except String Nat)
    (db : Nat → Option UserRec) (pairs : List (String × String)) :
    Except String Principal :=
  match extractToken pairs with
  | none => .ok .anonymousUser
  | some t =>
    match verify t with
    | .error e => .error e
    | .ok uid =>
      match db uid with
      | none => .ok .anonymousUser
      | some u =>
        if u.is_active then .ok (.user u) else .ok .anonymousUser

/-- The trust service behaviour on a token that is not a valid JWT:
`rest_framework_simplejwt`'s `AccessToken` constructor raises
`TokenError("Token is invalid or expired")` on a malformed or expired
token string. -/
def rejectVerify : String → Except String Nat :=
  fun _ => .error "Token is invalid or expired"

/-- A user table with no rows. -/
def emptyDb : Nat → Option UserRec := fun _ => none

/-! ## Trips (src/server/trips/models.py) -/

/-- The field names declared on the `Trip` model in trips/models.py:
`id` (UUID primary key), `pickup`, `dropoff`, `status`, `created`,
`updated` — and no others; in particular the model declares no `rider`
and no `driver` field, although the tests in
src/server/api/tests/test_websockets.py create trips with `rider=` and
`driver=` keyword arguments. -/
def Trip.fieldNames : List String :=
  ["id", "pickup", "dropoff", "status", "created", "updated"]

/-- The `Trip.Transitions` text choices of trips/models.py, as
`(value, label)` pairs. -/
def Trip.Transitions.choices : List (String × String) :=
  [("REQUESTED", "requested"), ("STARTED", "started"),
   ("IN_PROGRESS", "in_progress"), ("COMPLETED", "completed")]

/-- Django validation of the `status` CharField: a field declared with
`choices=Transitions.choices` accepts exactly the declared choice values
and raises `ValidationError` for every other string (the check Django
runs in `full_clean`, and the one a DRF `ChoiceField` built from the
same choices runs before anything is stored). -/
def Trip.validateStatus (s : String) : Except String String :=
  if (Trip.Transitions.choices.map Prod.fst).contains s then .ok s
  else .error "Value is not a valid choice."

/-! ## Group registry and dispatch session

The websocket consumer module is not under `src/`; the definitions below
are modelled from the spec (sections 4.2 Group Registry and 4.4 Dispatch
Session and Message Router) and the behaviour its tests exercise. -/

/-- Modelled from the spec: the names of the groups the protocol uses —
the fixed driver pool (`'drivers'`) and one group per trip, named by the
trip identifier. -/
inductive GroupName where
  | drivers
  | trip (id : String)
deriving DecidableEq, Repr

/-- Modelled from the spec: the Group Registry state, a mapping from
group name to the list of currently subscribed connections (channel
names). -/
def Registry : Type := GroupName → List String

/-- Modelled from the spec: the membership set of a group. -/
def members (r : Registry) (g : GroupName) : List String := r g

/-- Modelled from the spec: `group_add` — idempotent join of a
connection to a group; a group is created implicitly on first join. -/
def groupAdd (r : Registry) (g : GroupName) (c : String) : Registry :=
  fun g' => if g' = g then (if c ∈ r g then r g else r g ++ [c]) else r g'

/-- Modelled from the spec: `group_send` — deliver a message to every
connection currently in the group; an empty group receives nothing. -/
def groupSend (r : Registry) (g : GroupName) (m : α) : List (String × α) :=
  (members r g).map (fun c => (c, m))

/-- The wire shape of a trip record in a broadcast: id, pickup, dropoff,
status, and nullable rider and driver references (user identifiers).
Modelled from the spec data model (the `Trip` model under `src/` lacks
the rider and driver columns the tests use; see `Trip.fieldNames`). -/
structure TripRecord where
  id : String
  pickup : String
  dropoff : String
  status : String
  rider : Option Nat
  driver : Option Nat
deriving DecidableEq, Repr

/-- The payload of a wire message. -/
inductive MsgData where
  | text (s : String)
  | createReq (pickup dropoff : String) (rider : Nat)
  | updateReq (id pickup dropoff status : String) (driver : Nat)
  | trip (t : TripRecord)
  | err (e : String)
deriving DecidableEq, Repr

/-- The wire message envelope: `{ "type": <string>, "data": <payload> }`. -/
structure Msg where
  type : String
  data : MsgData
deriving DecidableEq, Repr

/-- Modelled from the spec: server-side state the dispatch handlers
touch — the group registry, the stored trips, and the id generator of
the storage service (a counter standing in for `uuid.uuid4`). -/
structure ServerState where
  registry : Registry
  trips : List TripRecord
  nextId : Nat

/-- Modelled from the spec: the globally unique opaque trip identifier
the storage service allocates on create. -/
def freshId (n : Nat) : String := "trip-" ++ toString n

/-- A trip record wrapped for broadcast, tagged with the message type
the consumer uses when handing trip data to connections. -/
def tripMsg (t : TripRecord) : Msg :=
  { type := "echo.message", data := MsgData.trip t }

/-- Modelled from the spec: the trip record the storage service builds
on create — fresh identifier, the submitted pickup, dropoff and rider,
status REQUESTED (the model field default) and no driver. -/
def createdTrip (st : ServerState) (pickup dropoff : String)
    (rider : Nat) : TripRecord :=
  { id := freshId st.nextId, pickup := pickup, dropoff := dropoff,
    status := "REQUESTED", rider := some rider, driver := none }

/-- Modelled from the spec: a trip record with the field changes of an
update applied — new pickup, dropoff and status, and the supplied driver
assigned. -/
def updatedTrip (t : TripRecord) (pickup dropoff status : String)
    (driver : Nat) : TripRecord :=
  { t with pickup := pickup, dropoff := dropoff, status := status,
           driver := some driver }

/-- Modelled from the spec: the `create.trip` handler — allocate a new
trip with status REQUESTED and no driver, persist it, subscribe the
creating connection to the new trip group, reply to the sender with the
record, and broadcast the same record to the driver pool group. -/
def handleCreateTrip (conn : String) (pickup dropoff : String)
    (rider : Nat) (st : ServerState) :
    ServerState × List (String × Msg) :=
  let t := createdTrip st pickup dropoff rider
  let r1 := groupAdd st.registry (GroupName.trip t.id) conn
  let st1 : ServerState :=
    { registry := r1, trips := st.trips ++ [t], nextId := st.nextId + 1 }
  (st1, (conn, tripMsg t) :: groupSend r1 GroupName.drivers (tripMsg t))

/-- Modelled from the spec: the `update.trip` handler — load the trip by
id (not-found is reported to the sender, not fatal), apply the supplied
field changes (pickup, dropoff, status, driver assignment), persist,
subscribe the acting connection to the trip group, and broadcast the
updated record to that group. -/
def handleUpdateTrip (conn : String) (tid pickup dropoff status : String)
    (driver : Nat) (st : ServerState) :
    ServerState × List (String × Msg) :=
  match st.trips.find? (fun t => t.id == tid) with
  | none => (st, [(conn, { type := "error", data := MsgData.err "trip not found" })])
  | some t =>
    let t1 := updatedTrip t pickup dropoff status driver
    let r1 := groupAdd st.registry (GroupName.trip tid) conn
    let st1 : ServerState :=
      { registry := r1,
        trips := st.trips.map (fun x => if x.id == tid then t1 else x),
        nextId := st.nextId }
    (st1, groupSend r1 (GroupName.trip tid) (tripMsg t1))

/-- Modelled from the spec: the Message Router — dispatch an inbound
message by its `type` tag: `echo.message` re-delivers the message
verbatim to the sending connection; `create.trip` and `update.trip`
invoke their handlers; an unknown type or a malformed payload is
answered with an error message to the sender, never a crash. -/
def receiveMsg (conn : String) (m : Msg) (st : ServerState) :
    ServerState × List (String × Msg) :=
  if m.type = "echo.message" then
    (st, [(conn, m)])
  else if m.type = "create.trip" then
    match m.data with
    | MsgData.createReq p d r => handleCreateTrip conn p d r st
    | _ => (st, [(conn, { type := "error", data := MsgData.err "malformed payload" })])
  else if m.type = "update.trip" then
    match m.data with
    | MsgData.updateReq i p d s dr => handleUpdateTrip conn i p d s dr st
    | _ => (st, [(conn, { type := "error", data := MsgData.err "malformed payload" })])
  else
    (st, [(conn, { type := "error", data := MsgData.err "unknown message type" })])

/-- Modelled from the spec: the Dispatch Session on-connect hook group
joins — a DRIVER-role principal joins the driver pool group, and the
connection joins the trip group of every stored, not-completed trip in
which the principal participates as rider or driver. -/
def connectJoinGroups (role : UserType) (uid : Nat) (conn : String)
    (st : ServerState) : ServerState :=
  let r1 := if role = UserType.DRIVER
            then groupAdd st.registry GroupName.drivers conn
            else st.registry
  let active := st.trips.filter
    (fun t => !(t.status == "COMPLETED") &&
              (t.rider == some uid || t.driver == some uid))
  { st with registry :=
      active.foldl (fun r t => groupAdd r (GroupName.trip t.id) conn) r1 }

/-- Modelled from the spec: the Dispatch Session connect hook admission
decision — the transport handshake is accepted only when the middleware
attached a valid, active principal; an anonymous principal is rejected
(connection closed), and an exception raised during the middleware
aborts the handshake, so it is not accepted either. -/
def connectAccepted (verify : String → Except String Nat)
    (db : Nat → Option UserRec) (pairs : List (String × String)) : Bool :=
  match tokenAuthMiddleware verify db pairs with
  | .error _ => false
  | .ok Principal.anonymousUser => false
  | .ok (Principal.user _) => true

/-! ## Concrete instances used to evaluate the development -/

/-- A persisted, active rider (the shape created by `create_user` in the
websocket tests). -/
def activeUser : UserRec :=
  { pk := some 7, first_name := none, last_name := none,
    phone_number := "0731245689", is_staff := false, is_active := true,
    otp := none, date_joined := 0, type := UserType.RIDER }

/-- A user record that has not been saved yet (no primary key). -/
def newUser : UserRec :=
  { pk := none, first_name := none, last_name := none,
    phone_number := "0712345689", is_staff := false, is_active := true,
    otp := none, date_joined := 0, type := UserType.RIDER }

/-- A trust service that accepts exactly one token, resolving it to
subject 7, and rejects every other token string. -/
def okVerify : String → Except String Nat :=
  fun t => if t = "tok-valid" then .ok 7 else .error "Token is invalid or expired"

/-- A user table holding only `activeUser` under id 7. -/
def oneUserDb : Nat → Option UserRec :=
  fun n => if n = 7 then some activeUser else none

/-- A server state with empty registry and no trips. -/
def st0 : ServerState := { registry := fun _ => [], trips := [], nextId := 0 }

/-- A server state whose driver pool group has one subscribed channel. -/
def stDrivers : ServerState :=
  { registry := fun g => if g = GroupName.drivers then ["driverChan"] else [],
    trips := [], nextId := 0 }

/-- A stored trip whose rider is user 7 and whose driver is unassigned. -/
def trip7 : TripRecord :=
  { id := "trip-0", pickup := "123 Street Home Address",
    dropoff := "456 Street Destination", status := "REQUESTED",
    rider := some 7, driver := none }

/-- A server state holding `trip7` and an empty registry. -/
def stTrip7 : ServerState := { registry := fun _ => [], trips := [trip7], nextId := 1 }

/-! ## Registry lemmas -/

/-- Joining a group subscribes the connection to that group. -/
theorem mem_members_groupAdd_self (r : Registry) (g : GroupName) (c : String) :
    c ∈ members (groupAdd r g c) g := by
  simp only [members, groupAdd, if_pos rfl]
  by_cases h : c ∈ r g
  · rw [if_pos h]; exact h
  · rw [if_neg h]; exact List.mem_append_right _ (List.mem_singleton.mpr rfl)

/-- Joining never removes anyone from any group. -/
theorem mem_members_groupAdd_of_mem {r : Registry} {g : GroupName} {c : String}
    (g' : GroupName) (c' : String) (h : c ∈ members r g) :
    c ∈ members (groupAdd r g' c') g := by
  simp only [members, groupAdd]
  split
  · next heq =>
    subst heq
    split
    · exact h
    · exact List.mem_append_left _ h
  · exact h

/-- Joining a trip group leaves the driver pool membership unchanged. -/
theorem members_groupAdd_trip_drivers (r : Registry) (g : String) (c : String) :
    members (groupAdd r (GroupName.trip g) c) GroupName.drivers =
      members r GroupName.drivers := by
  simp only [members, groupAdd]
  rw [if_neg (fun h => GroupName.noConfusion h)]

/-- A fold of trip-group joins never removes anyone from any group. -/
theorem foldl_join_mem_of_mem (l : List TripRecord) (conn : String)
    {r : Registry} {g : GroupName} {c : String} (h : c ∈ members r g) :
    c ∈ members
        (l.foldl (fun r t => groupAdd r (GroupName.trip t.id) conn) r) g := by
  induction l generalizing r with
  | nil => exact h
  | cons a l ih => exact ih (mem_members_groupAdd_of_mem _ _ h)

/-- After folding a trip-group join over a list of trips, the connection
is a member of the group of every trip in the list. -/
theorem foldl_join_mem_self (l : List TripRecord) (conn : String) :
    ∀ (r : Registry) (t : TripRecord), t ∈ l →
      conn ∈ members
          (l.foldl (fun r x => groupAdd r (GroupName.trip x.id) conn) r)
          (GroupName.trip t.id) := by
  induction l with
  | nil => intro r t ht; cases ht
  | cons a l ih =>
    intro r t ht
    rcases List.mem_cons.mp ht with h | h
    · subst h
      exact foldl_join_mem_of_mem l conn (mem_members_groupAdd_self r _ conn)
    · exact ih _ t h

/-- Fan-out delivers to every current member of the group. -/
theorem mem_groupSend_of_mem {r : Registry} {g : GroupName} {c : String}
    (m : Msg) (h : c ∈ members r g) : (c, m) ∈ groupSend r g m :=
  List.mem_map.mpr ⟨c, h, rfl⟩

/-- Fan-out delivers only to members: a connection outside the group
receives nothing from a send to that group. -/
theorem not_mem_groupSend {r : Registry} {g : GroupName} {c : String}
    (m : Msg) (h : c ∉ members r g) : (c, m) ∉ groupSend r g m := by
  simp only [groupSend, List.mem_map]
  rintro ⟨x, hx, hxy⟩
  simp only [Prod.mk.injEq] at hxy
  exact h (hxy.1 ▸ hx)

/-- A freshly allocated trip identifier is a nonempty string. -/
theorem freshId_ne_empty (n : Nat) : freshId n ≠ "" := by
  unfold freshId
  intro h
  have h1 : ("trip-" ++ toString n).length = (0 : Nat) := by rw [h]; rfl
  rw [String.length_append] at h1
  have h2 : ("trip-" : String).length = 5 := rfl
  omega

/-- Unfolding of the middleware on a request without a usable token. -/
theorem tokenAuthMiddleware_eq_none (verify : String → Except String Nat)
    (db : Nat → Option UserRec) (pairs : List (String × String))
    (h : extractToken pairs = none) :
    tokenAuthMiddleware verify db pairs = .ok Principal.anonymousUser := by
  unfold tokenAuthMiddleware
  rw [h]

/-- Unfolding of the middleware on a request carrying a token. -/
theorem tokenAuthMiddleware_eq_some (verify : String → Except String Nat)
    (db : Nat → Option UserRec) (pairs : List (String × String))
    (t : String) (h : extractToken pairs = some t) :
    tokenAuthMiddleware verify db pairs =
      (match verify t with
       | .error e => .error e
       | .ok uid =>
         match db uid with
         | none => .ok Principal.anonymousUser
         | some u =>
           if u.is_active then .ok (Principal.user u)
           else .ok Principal.anonymousUser) := by
  unfold tokenAuthMiddleware
  rw [h]

/-- Membership of a string in the declared status choice values. -/
theorem contains_statusValues (s : String) :
    ((Trip.Transitions.choices.map Prod.fst).contains s = true) ↔
      (s = "REQUESTED" ∨ s = "STARTED" ∨ s = "IN_PROGRESS" ∨ s = "COMPLETED") := by
  simp [Trip.Transitions.choices]

/-! ## Claims -/

/-- C1 (counterexample): the claim says the Trust Gate never raises past
its boundary and that a malformed token degrades to the anonymous
marker; but `TokenAuthMiddleware.__call__` calls `AccessToken(token[0])`
outside any try/except, so on the concrete request `?token=notavalidjwt`
the verification failure propagates as an exception instead of attaching
the anonymous marker. -/
theorem C1_counterexample :
    tokenAuthMiddleware rejectVerify emptyDb [("token", "notavalidjwt")] =
      .error "Token is invalid or expired" := rfl

/-- C1 (amended): for every connection request, a missing (or blank)
token attaches the anonymous marker; a token that verifies but whose
subject is not found, or is found but inactive, also attaches the
anonymous marker; a token that verifies and resolves to an active user
attaches that user; but a token that fails verification (malformed or
expired) raises the verification exception past the middleware. -/
theorem C1_amended_behaviour (verify : String → Except String Nat)
    (db : Nat → Option UserRec) (pairs : List (String × String)) :
    (extractToken pairs = none →
        tokenAuthMiddleware verify db pairs = .ok Principal.anonymousUser)
  ∧ (∀ t, extractToken pairs = some t →
      (∀ e, verify t = .error e →
          tokenAuthMiddleware verify db pairs = .error e)
      ∧ (∀ uid, verify t = .ok uid →
          (db uid = none →
              tokenAuthMiddleware verify db pairs = .ok Principal.anonymousUser)
          ∧ (∀ u, db uid = some u → u.is_active = false →
              tokenAuthMiddleware verify db pairs = .ok Principal.anonymousUser)
          ∧ (∀ u, db uid = some u → u.is_active = true →
              tokenAuthMiddleware verify db pairs = .ok (Principal.user u)))) := by
  constructor
  · exact tokenAuthMiddleware_eq_none verify db pairs
  · intro t ht
    constructor
    · intro e he
      rw [tokenAuthMiddleware_eq_some verify db pairs t ht]
      simp [he]
    · intro uid hu
      refine ⟨?_, ?_, ?_⟩
      · intro hd
        rw [tokenAuthMiddleware_eq_some verify db pairs t ht]
        simp [hu, hd]
      · intro u hd hia
        rw [tokenAuthMiddleware_eq_some verify db pairs t ht]
        simp [hu, hd, hia]
      · intro u hd hia
        rw [tokenAuthMiddleware_eq_some verify db pairs t ht]
        simp [hu, hd, hia]

/-- Witness for the amended C1 at concrete requests: an absent token and
an unknown-subject token degrade to anonymous, a rejected token raises,
and the valid token attaches the active user. -/
theorem C1_amended_behaviour_witness :
    tokenAuthMiddleware okVerify oneUserDb [] = .ok Principal.anonymousUser
  ∧ tokenAuthMiddleware okVerify oneUserDb [("token", "bad")] =
      .error "Token is invalid or expired"
  ∧ tokenAuthMiddleware okVerify oneUserDb [("token", "tok-valid")] =
      .ok (Principal.user activeUser) :=
  ⟨(C1_amended_behaviour okVerify oneUserDb []).1 rfl,
   ((C1_amended_behaviour okVerify oneUserDb [("token", "bad")]).2 "bad" rfl).1
      "Token is invalid or expired" rfl,
   (((C1_amended_behaviour okVerify oneUserDb [("token", "tok-valid")]).2
      "tok-valid" rfl).2 7 rfl).2.2 activeUser rfl rfl⟩

/-- C2: for every connection attempt, a token that verifies and resolves
to an active principal yields an accepted handshake, while a missing
token, a token failing verification (the middleware exception aborts the
handshake before acceptance), an unknown subject, or an inactive subject
yields a rejected handshake. -/
theorem C2_handshake (verify : String → Except String Nat)
    (db : Nat → Option UserRec) (pairs : List (String × String)) :
    (∀ t uid u, extractToken pairs = some t → verify t = .ok uid →
        db uid = some u → u.is_active = true →
        connectAccepted verify db pairs = true)
  ∧ (extractToken pairs = none → connectAccepted verify db pairs = false)
  ∧ (∀ t e, extractToken pairs = some t → verify t = .error e →
        connectAccepted verify db pairs = false)
  ∧ (∀ t uid, extractToken pairs = some t → verify t = .ok uid →
        db uid = none → connectAccepted verify db pairs = false)
  ∧ (∀ t uid u, extractToken pairs = some t → verify t = .ok uid →
        db uid = some u → u.is_active = false →
        connectAccepted verify db pairs = false) := by
  refine ⟨?_, ?_, ?_, ?_, ?_⟩
  · intro t uid u ht hv hd ha
    unfold connectAccepted
    rw [tokenAuthMiddleware_eq_some verify db pairs t ht]
    simp [hv, hd, ha]
  · intro h
    unfold connectAccepted
    rw [tokenAuthMiddleware_eq_none verify db pairs h]
  · intro t e ht hv
    unfold connectAccepted
    rw [tokenAuthMiddleware_eq_some verify db pairs t ht]
    simp [hv]
  · intro t uid ht hv hd
    unfold connectAccepted
    rw [tokenAuthMiddleware_eq_some verify db pairs t ht]
    simp [hv, hd]
  · intro t uid u ht hv hd ha
    unfold connectAccepted
    rw [tokenAuthMiddleware_eq_some verify db pairs t ht]
    simp [hv, hd, ha]

/-- Witness for C2 at concrete requests: the valid token is admitted;
the blank-token request of the test
`test_cannot_connect_to_socket_without_valid_token` (`?token=`) and a
rejected token are both refused. -/
theorem C2_handshake_witness :
    connectAccepted okVerify oneUserDb [("token", "tok-valid")] = true
  ∧ connectAccepted okVerify oneUserDb [("token", "")] = false
  ∧ connectAccepted okVerify oneUserDb [("token", "bad")] = false :=
  ⟨(C2_handshake okVerify oneUserDb [("token", "tok-valid")]).1
      "tok-valid" 7 activeUser rfl rfl rfl rfl,
   (C2_handshake okVerify oneUserDb [("token", "")]).2.1 rfl,
   (C2_handshake okVerify oneUserDb [("token", "bad")]).2.2.1
      "bad" "Token is invalid or expired" rfl rfl⟩

/-- C4: the `Trip` model under src/ does not carry the attribute list the
claim states — it declares pickup, dropoff, status, created and updated
(plus the id primary key), but no rider and no driver reference, even
though the repository's own tests create trips with `rider=` and
`driver=` keyword arguments. -/
theorem C4_trip_model_fields :
    "rider" ∉ Trip.fieldNames ∧ "driver" ∉ Trip.fieldNames
  ∧ "pickup" ∈ Trip.fieldNames ∧ "dropoff" ∈ Trip.fieldNames
  ∧ "status" ∈ Trip.fieldNames ∧ "created" ∈ Trip.fieldNames
  ∧ "updated" ∈ Trip.fieldNames := by
  refine ⟨?_, ?_, ?_, ?_, ?_, ?_, ?_⟩ <;> simp [Trip.fieldNames]

/-- C8: the trip status field accepts exactly the four enumeration
values REQUESTED, STARTED, IN_PROGRESS and COMPLETED, and validation of
any other string yields a validation error instead of an accepted
value. -/
theorem C8_status_choices (s : String) :
    (Trip.validateStatus s = .ok s ↔
      s = "REQUESTED" ∨ s = "STARTED" ∨ s = "IN_PROGRESS" ∨ s = "COMPLETED")
  ∧ (s ≠ "REQUESTED" → s ≠ "STARTED" → s ≠ "IN_PROGRESS" → s ≠ "COMPLETED" →
      Trip.validateStatus s = .error "Value is not a valid choice.") := by
  unfold Trip.validateStatus
  constructor
  · by_cases h : (Trip.Transitions.choices.map Prod.fst).contains s
    · rw [if_pos h]
      exact ⟨fun _ => (contains_statusValues s).mp h, fun _ => rfl⟩
    · rw [if_neg h]
      constructor
      · intro he; exact Except.noConfusion he
      · intro hmem
        exact absurd ((contains_statusValues s).mpr hmem) h
  · intro h1 h2 h3 h4
    rw [if_neg]
    intro hc
    rcases (contains_statusValues s).mp hc with h | h | h | h
    · exact h1 h
    · exact h2 h
    · exact h3 h
    · exact h4 h

/-- Witness for C8 at concrete strings: a value outside the enumeration
is rejected with a validation error and an enumerated value is
accepted. -/
theorem C8_status_choices_witness :
    Trip.validateStatus "CANCELLED" = .error "Value is not a valid choice."
  ∧ Trip.validateStatus "STARTED" = .ok "STARTED" :=
  ⟨(C8_status_choices "CANCELLED").2 (by decide) (by decide) (by decide) (by decide),
   (C8_status_choices "STARTED").1.mpr (Or.inr (Or.inl rfl))⟩

/-- C9: every save through the Owner proxy sets `is_staff` to true,
regardless of the stored value and of whether the record is new or
persisted, while saves through the Driver and Rider proxies leave
`is_staff` unchanged. -/
theorem C9_proxy_staff_flag (u : UserRec) :
    (Owner.save u).is_staff = true
  ∧ (Driver.save u).is_staff = u.is_staff
  ∧ (Rider.save u).is_staff = u.is_staff := by
  unfold Owner.save Driver.save Rider.save
  refine ⟨?_, ?_, ?_⟩ <;> dsimp only <;> split <;> rfl

/-- C10: the role-specific save hooks assign the `type` field only when
the record has no primary key yet; saving an already-persisted user
through any of the three proxies leaves its stored type unchanged, and
saving a fresh record assigns OWNER, DRIVER or RIDER respectively. -/
theorem C10_type_assignment (u : UserRec) :
    (pkTruthy u.pk = true →
        (Owner.save u).type = u.type
      ∧ (Driver.save u).type = u.type
      ∧ (Rider.save u).type = u.type)
  ∧ (pkTruthy u.pk = false →
        (Owner.save u).type = UserType.OWNER
      ∧ (Driver.save u).type = UserType.DRIVER
      ∧ (Rider.save u).type = UserType.RIDER) := by
  unfold Owner.save Driver.save Rider.save
  constructor
  · intro h; simp [h]
  · intro h; simp [h]

/-- Witness for C10 at concrete records: a persisted driver keeps its
stored type through `Owner.save`, and a fresh record saved through
`Owner.save` becomes an OWNER. -/
theorem C10_type_assignment_witness :
    (Owner.save activeUser).type = UserType.RIDER
  ∧ (Owner.save newUser).type = UserType.OWNER :=
  ⟨((C10_type_assignment activeUser).1 (by decide)).1,
   ((C10_type_assignment newUser).2 (by decide)).1⟩

/-- C5: for any payload, an `echo.message` sent over an admitted
connection is re-delivered, verbatim and only, to the sending
connection, and the server state is left unchanged. -/
theorem C5_echo_identity (conn : String) (m : Msg) (st : ServerState)
    (h : m.type = "echo.message") :
    (receiveMsg conn m st).2 = [(conn, m)]
  ∧ (receiveMsg conn m st).1 = st := by
  unfold receiveMsg
  rw [if_pos h]
  exact ⟨rfl, rfl⟩

/-- Witness for C5 at a concrete payload: the message of the test
`test_can_send_and_recieve_message` comes back to the sender exactly. -/
theorem C5_echo_identity_witness :
    (receiveMsg "riderChan"
        { type := "echo.message", data := MsgData.text "This is a test message" }
        st0).2
      = [("riderChan",
          { type := "echo.message", data := MsgData.text "This is a test message" })] :=
  (C5_echo_identity "riderChan"
    { type := "echo.message", data := MsgData.text "This is a test message" }
    st0 rfl).1

/-- C3: a `create.trip` message carrying pickup, dropoff and rider is
answered to the sender with a trip record whose id is the freshly
allocated (nonempty) identifier, whose driver is null, whose status is
REQUESTED and whose pickup and dropoff echo the input; and the same
record is delivered to every member of the driver pool group. -/
theorem C3_create_trip (conn pickup dropoff : String) (rider : Nat)
    (st : ServerState) :
    (receiveMsg conn
        { type := "create.trip", data := MsgData.createReq pickup dropoff rider }
        st).2.head?
      = some (conn, tripMsg (createdTrip st pickup dropoff rider))
  ∧ (createdTrip st pickup dropoff rider).id ≠ ""
  ∧ (createdTrip st pickup dropoff rider).driver = none
  ∧ (createdTrip st pickup dropoff rider).status = "REQUESTED"
  ∧ (createdTrip st pickup dropoff rider).pickup = pickup
  ∧ (createdTrip st pickup dropoff rider).dropoff = dropoff
  ∧ (createdTrip st pickup dropoff rider).rider = some rider
  ∧ ∀ c ∈ members st.registry GroupName.drivers,
      (c, tripMsg (createdTrip st pickup dropoff rider)) ∈
        (receiveMsg conn
          { type := "create.trip", data := MsgData.createReq pickup dropoff rider }
          st).2 := by
  have hr : receiveMsg conn
      { type := "create.trip", data := MsgData.createReq pickup dropoff rider } st
      = handleCreateTrip conn pickup dropoff rider st := rfl
  rw [hr]
  refine ⟨rfl, freshId_ne_empty st.nextId, rfl, rfl, rfl, rfl, rfl, ?_⟩
  intro c hc
  have hc1 : c ∈ members
      (groupAdd st.registry (GroupName.trip (createdTrip st pickup dropoff rider).id) conn)
      GroupName.drivers := by
    rw [members_groupAdd_trip_drivers]
    exact hc
  exact List.mem_cons_of_mem _ (mem_groupSend_of_mem _ hc1)

/-- Witness for C3 at the concrete request of `test_can_create_trip`,
against a state whose driver pool has one subscribed channel: the sender
gets the REQUESTED record back and the driver channel receives the same
record. -/
theorem C3_create_trip_witness :
    (receiveMsg "riderChan"
        { type := "create.trip",
          data := MsgData.createReq "123 Street Home Address" "456 Street Destination" 7 }
        stDrivers).2.head?
      = some ("riderChan",
          tripMsg (createdTrip stDrivers "123 Street Home Address" "456 Street Destination" 7))
  ∧ ("driverChan",
      tripMsg (createdTrip stDrivers "123 Street Home Address" "456 Street Destination" 7)) ∈
        (receiveMsg "riderChan"
          { type := "create.trip",
            data := MsgData.createReq "123 Street Home Address" "456 Street Destination" 7 }
          stDrivers).2 := by
  have h := C3_create_trip "riderChan" "123 Street Home Address"
    "456 Street Destination" 7 stDrivers
  exact ⟨h.1, h.2.2.2.2.2.2.2 "driverChan" (by decide)⟩

/-- C6: a connection whose principal is recorded as rider or driver of a
stored, not-completed trip is a member of that trip group immediately
after the connect hook runs; and a connection that is not a member of a
trip group never receives a fan-out addressed to that group. -/
theorem C6_trip_group_membership (role : UserType) (uid : Nat)
    (conn : String) (st : ServerState) (t : TripRecord) (ht : t ∈ st.trips)
    (hs : t.status ≠ "COMPLETED")
    (hp : t.rider = some uid ∨ t.driver = some uid) :
    conn ∈ members (connectJoinGroups role uid conn st).registry
        (GroupName.trip t.id)
  ∧ ∀ (r : Registry) (c : String) (m : Msg),
      c ∉ members r (GroupName.trip t.id) →
      (c, m) ∉ groupSend r (GroupName.trip t.id) m := by
  constructor
  · unfold connectJoinGroups
    dsimp only
    apply foldl_join_mem_self
    apply List.mem_filter.mpr
    refine ⟨ht, ?_⟩
    simp only [Bool.and_eq_true, Bool.not_eq_true', Bool.or_eq_true,
      beq_iff_eq, beq_eq_false_iff_ne]
    refine ⟨hs, ?_⟩
    rcases hp with h | h
    · exact Or.inl h
    · exact Or.inr h
  · intro r c m hc
    exact not_mem_groupSend m hc

/-- Witness for C6 at a concrete state: rider 7 reconnecting while
`trip7` is stored joins the trip group of `trip7`, and a channel outside
that group receives nothing from a fan-out to it. -/
theorem C6_trip_group_membership_witness :
    "riderChan" ∈ members
        (connectJoinGroups UserType.RIDER 7 "riderChan" stTrip7).registry
        (GroupName.trip trip7.id)
  ∧ ("otherChan", tripMsg trip7) ∉
      groupSend stTrip7.registry (GroupName.trip trip7.id) (tripMsg trip7) := by
  have h := C6_trip_group_membership UserType.RIDER 7 "riderChan" stTrip7 trip7
    (List.mem_singleton.mpr rfl) (by decide) (Or.inl rfl)
  exact ⟨h.1, h.2 stTrip7.registry "otherChan" (tripMsg trip7) (by decide)⟩

/-- C7: when an `update.trip` message supplies a new status and a driver
for an existing trip, the acting connection is subscribed to the trip
group and every member of that group receives the broadcast record
carrying the new status and the assigned driver. -/
theorem C7_update_broadcast (conn : String)
    (tid pickup dropoff status : String) (driver : Nat) (st : ServerState)
    (t : TripRecord) (hfind : st.trips.find? (fun x => x.id == tid) = some t) :
    (updatedTrip t pickup dropoff status driver).status = status
  ∧ (updatedTrip t pickup dropoff status driver).driver = some driver
  ∧ conn ∈ members
      ((receiveMsg conn
          { type := "update.trip",
            data := MsgData.updateReq tid pickup dropoff status driver }
          st).1.registry)
      (GroupName.trip tid)
  ∧ ∀ c ∈ members
        ((receiveMsg conn
            { type := "update.trip",
              data := MsgData.updateReq tid pickup dropoff status driver }
            st).1.registry)
        (GroupName.trip tid),
      (c, tripMsg (updatedTrip t pickup dropoff status driver)) ∈
        (receiveMsg conn
          { type := "update.trip",
            data := MsgData.updateReq tid pickup dropoff status driver }
          st).2 := by
  have hr : receiveMsg conn
      { type := "update.trip",
        data := MsgData.updateReq tid pickup dropoff status driver } st
      = handleUpdateTrip conn tid pickup dropoff status driver st := rfl
  have he : handleUpdateTrip conn tid pickup dropoff status driver st
      = ({ registry := groupAdd st.registry (GroupName.trip tid) conn,
           trips := st.trips.map (fun x =>
             if x.id == tid then updatedTrip t pickup dropoff status driver else x),
           nextId := st.nextId },
         groupSend (groupAdd st.registry (GroupName.trip tid) conn)
           (GroupName.trip tid)
           (tripMsg (updatedTrip t pickup dropoff status driver))) := by
    unfold handleUpdateTrip
    rw [hfind]
  rw [hr, he]
  refine ⟨rfl, rfl, mem_members_groupAdd_self _ _ _, ?_⟩
  intro c hc
  exact mem_groupSend_of_mem _ hc

/-- Witness for C7 at the concrete update of `test_driver_can_update_trip`:
driver 9 sets `trip7` to IN_PROGRESS, joins the trip group and receives
the broadcast record with the new status and driver. -/
theorem C7_update_broadcast_witness :
    (updatedTrip trip7 "123 Street Home Address" "456 Street Destination"
        "IN_PROGRESS" 9).status = "IN_PROGRESS"
  ∧ (updatedTrip trip7 "123 Street Home Address" "456 Street Destination"
        "IN_PROGRESS" 9).driver = some 9
  ∧ ("driverChan",
      tripMsg (updatedTrip trip7 "123 Street Home Address"
        "456 Street Destination" "IN_PROGRESS" 9)) ∈
        (receiveMsg "driverChan"
          { type := "update.trip",
            data := MsgData.updateReq "trip-0" "123 Street Home Address"
              "456 Street Destination" "IN_PROGRESS" 9 }
          stTrip7).2 := by
  have h := C7_update_broadcast "driverChan" "trip-0" "123 Street Home Address"
    "456 Street Destination" "IN_PROGRESS" 9 stTrip7 trip7 rfl
  exact ⟨h.1, h.2.1, h.2.2.2 "driverChan" h.2.2.1⟩
